import Mathlib

/-!
Verification of the Floradex mobile client orchestration layer: endpoint
fallback probing, identification flow, auth/session lifecycle and collection
CRUD state updates, embedded from the screen components of the repository.
-/

namespace Floradex

/-- Character-level prefix test modelling the JavaScript method
`String.prototype.startsWith` on the sequence of characters:
`beginsWith pre s` holds when `pre` is an initial segment of `s`. -/
def beginsWith : List Char → List Char → Bool
  | [], _ => true
  | _ :: _, [] => false
  | p :: ps, c :: cs => p == c && beginsWith ps cs

/-- JS `s.startsWith(pre)` over Lean strings. -/
def jsStartsWith (s pre : String) : Bool :=
  beginsWith pre.data s.data

/-- Outcome of one `fetch` of a candidate URL: the promise rejected
(network failure), or it resolved with some HTTP status code. -/
inductive AttemptOutcome where
  | throws
  | status (code : Nat)
deriving DecidableEq

/-- `Response.ok` of the WHATWG fetch API: status in the range 200..299. -/
def responseOk : AttemptOutcome → Bool
  | .throws => false
  | .status code => decide (200 ≤ code ∧ code < 300)

/-- The endpoint probe loop shared by `fetchPlants` and `deletePlant` in
`CollectionScreen.tsx`: walk the candidate paths in order; a candidate that
throws is skipped; a resolved response with `ok` status ends the loop and is
returned together with the path that succeeded; a resolved non-`ok` response
is also skipped; an empty remainder means every candidate failed (the caller
then throws its endpoint-exhausted error). The network is modelled as a map
from path to attempt outcome. -/
def resolveEndpoints (net : String → AttemptOutcome) : List String → Option (String × Nat)
  | [] => none
  | p :: rest =>
    match net p with
    | .throws => resolveEndpoints net rest
    | .status code =>
      if 200 ≤ code ∧ code < 300 then some (p, code)
      else resolveEndpoints net rest

/-- The candidate paths the probe loop actually issues requests against, in
order: every candidate up to and including the first one with an `ok`
response, or all of them when none succeeds. -/
def attemptTrace (net : String → AttemptOutcome) : List String → List String
  | [] => []
  | p :: rest =>
    match net p with
    | .throws => p :: attemptTrace net rest
    | .status code =>
      if 200 ≤ code ∧ code < 300 then [p]
      else p :: attemptTrace net rest

/-- Base URL hard-coded in `CollectionScreen.tsx` and `PlantDetailScreen.tsx`. -/
def API_URL : String := "http://127.0.0.1:8000"

/-- `getImageUri` from `CollectionScreen.tsx` and `PlantDetailScreen.tsx`
(the two copies are identical): absent or empty URL gives the empty string,
a URL starting with "http" is already absolute and used unchanged, a URL
starting with "/" is resolved against `API_URL`, anything else is returned
as is. -/
def getImageUri (imageUrl : Option String) : String :=
  match imageUrl with
  | none => ""
  | some url =>
    if url = "" then ""
    else if jsStartsWith url "http" then url
    else if jsStartsWith url "/" then API_URL ++ url
    else url

/-- Candidate paths probed by `fetchPlants` in `CollectionScreen.tsx`. -/
def listEndpoints : List String :=
  ["/api/plants", "/plants", "/api/userplants", "/userplants"]

/-- Candidate paths probed by `deletePlant` in `CollectionScreen.tsx`. -/
def deleteEndpoints (plantId : String) : List String :=
  ["/api/plants/" ++ plantId, "/plants/" ++ plantId,
   "/api/userplants/" ++ plantId, "/userplants/" ++ plantId]

/-- The single path used by `fetchUserData` in `ProfileScreen.tsx` for the
plant-count GET. -/
def profilePlantsPath : String := "/api/plants/"

/-- One entry of `all_predictions`, as returned by the identification
service. Confidence values are JSON decimals, modelled as rationals. -/
structure Prediction where
  plant_type : String
  confidence : ℚ
deriving DecidableEq

/-- The optional care information block of an identification response. -/
structure CareInfo where
  care_instructions : Option String
  watering_frequency : Option String
  sunlight_requirements : Option String
  humidity : Option String
  temperature : Option String
  fertilization : Option String
deriving DecidableEq

/-- The `IdentificationResult` record of `IdentifyScreen.tsx`. -/
structure IdentificationResult where
  plant_type : String
  confidence : ℚ
  all_predictions : List Prediction
  image_url : Option String
  care_info : Option CareInfo
deriving DecidableEq

/-- A plant item as rendered by `CollectionScreen.tsx`. -/
structure Plant where
  _id : String
  name : String
  type : String
  date_added : String
  confidence : ℚ
  image_url : Option String
  all_predictions : List Prediction
deriving DecidableEq

/-- Result of one awaited `fetch` call from the point of view of the caller:
the promise rejected with a message, or it resolved non-`ok` with a status
code and body text, or it resolved `ok` with a decoded body. -/
inductive HttpResult (α : Type) where
  | netError (msg : String)
  | failure (code : Nat) (bodyText : String)
  | success (body : α)
deriving DecidableEq

/-- Outcome of `fetchPlants` in `CollectionScreen.tsx`. -/
inductive FetchOutcome where
  | authError (msg : String)
  | exhausted (msg : String)
  | loaded (endpointPath : String) (code : Nat)
deriving DecidableEq

/-- `fetchPlants` from `CollectionScreen.tsx`: reads the token, returns the
auth error without touching the network when it is absent, otherwise runs
the endpoint probe loop over `listEndpoints`. The second component is the
list of candidate paths actually attempted (each request goes to
`API_URL ++ path`). -/
def fetchPlants (token : Option String) (net : String → AttemptOutcome) :
    FetchOutcome × List String :=
  match token with
  | none => (.authError "Authentication token not found. Please log in again.", [])
  | some _ =>
    match resolveEndpoints net listEndpoints with
    | some (p, code) => (.loaded p code, attemptTrace net listEndpoints)
    | none => (.exhausted "Failed to fetch plants from any endpoint", attemptTrace net listEndpoints)

/-- Outcome of `deletePlant` in `CollectionScreen.tsx`. -/
inductive DeleteOutcome where
  | authError (msg : String)
  | failed (msg : String)
  | removed (endpointPath : String)
deriving DecidableEq

/-- `deletePlant` from `CollectionScreen.tsx`: token guard, endpoint probe
loop over `deleteEndpoints plantId`, and on success the local-state update
`setPlants(prev.filter(plant.idField !== plantId))`. Returns the new
in-memory plant list together with the outcome. -/
def deletePlant (plantId : String) (token : Option String)
    (net : String → AttemptOutcome) (plants : List Plant) :
    List Plant × DeleteOutcome :=
  match token with
  | none => (plants, .authError "Authentication token not found. Please log in again.")
  | some _ =>
    match resolveEndpoints net (deleteEndpoints plantId) with
    | none => (plants, .failed "Failed to delete plant using any endpoint")
    | some (p, _) =>
      (plants.filter (fun pl => pl._id != plantId), .removed p)

/-- Outcome of `identifyPlant` in `IdentifyScreen.tsx`. -/
inductive IdentifyOutcome where
  | noImageSelected (msg : String)
  | identifyFailed (msg : String)
  | identified (result : IdentificationResult)
deriving DecidableEq

/-- `identifyPlant` from `IdentifyScreen.tsx`: requires a selected image and
stored token and user id; posts the multipart upload; a thrown fetch or a
non-`ok` status surfaces an error message; on success the parsed body has
its `image_url` overwritten with the local image URI before being stored as
the identification result shown to the user. -/
def identifyPlant (image token userId : Option String)
    (resp : HttpResult IdentificationResult) : IdentifyOutcome :=
  match image with
  | none => .noImageSelected "Please select an image first"
  | some img =>
    match token, userId with
    | some _, some _ =>
      match resp with
      | .netError e => .identifyFailed e
      | .failure _ errText => .identifyFailed ("Plant identification failed: " ++ errText)
      | .success r => .identified { r with image_url := some img }
    | _, _ => .identifyFailed "Authentication information not found. Please log in."

/-- The JSON body posted to `/api/plants/` by `addToCollection`. -/
structure PlantPayload where
  type : String
  user_id : String
  date_added : String
  name : String
  confidence : ℚ
  all_predictions : List Prediction
  image_data : String
deriving DecidableEq

/-- `addToCollection` from `IdentifyScreen.tsx`: requires an identification
result and stored token and user id; converts the selected image to base64
inside its own try/catch, so a failed conversion leaves `imageData` as the
empty string instead of aborting; then composes and posts the plant payload
(with the JS `||` fallbacks on the result fields). Returns the payload that
is posted, or `none` when the guards stop the operation before the POST. -/
def addToCollection (identificationResult : Option IdentificationResult)
    (token userId : Option String) (image : Option String)
    (conversion : Except Unit String) (now : String) : Option PlantPayload :=
  match identificationResult with
  | none => none
  | some r =>
    match token, userId with
    | some _, some uid =>
      let imageData : String :=
        match image with
        | none => ""
        | some _ =>
          match conversion with
          | .ok base64 => base64
          | .error _ => ""
      some
        { type := if r.plant_type = "" then "Unknown" else r.plant_type,
          user_id := uid,
          date_added := now,
          name := if r.plant_type = "" then "Unidentified Plant" else r.plant_type,
          confidence := if r.confidence = 0 then 0 else r.confidence,
          all_predictions := r.all_predictions,
          image_data := imageData }
    | _, _ => none

/-- The AsyncStorage keys `userToken`, `userId`, `username`. -/
structure SessionStore where
  userToken : Option String
  userId : Option String
  username : Option String
deriving DecidableEq

/-- The cleared session store (after logout or account deletion). -/
def SessionStore.empty : SessionStore := ⟨none, none, none⟩

/-- The decoded JSON body of an auth response; fields may be absent when the
body is not the expected shape (e.g. a non-JSON body decoded as a bare
`detail` string). -/
structure AuthBody where
  access_token : Option String
  _id : Option String
  username : Option String
deriving DecidableEq

/-- The three sequential `AsyncStorage.setItem` calls of `handleAuth` in
`AuthScreen.tsx`. `setItem` with an absent field throws before writing, so
the writing stops at the first missing field. Returns the resulting store
and whether all three writes completed. -/
def writeSession (store : SessionStore) (body : AuthBody) : SessionStore × Bool :=
  match body.access_token with
  | none => (store, false)
  | some tok =>
    let s1 : SessionStore := { store with userToken := some tok }
    match body._id with
    | none => (s1, false)
    | some uid =>
      let s2 : SessionStore := { s1 with userId := some uid }
      match body.username with
      | none => (s2, false)
      | some un => ({ s2 with username := some un }, true)

/-- Outcome of `handleAuth` in `AuthScreen.tsx`. `authenticated` corresponds
to `navigation.replace(Main)`. -/
inductive AuthOutcome where
  | validationError (msg : String)
  | authFailed (msg : String)
  | authenticated
deriving DecidableEq

/-- The user-facing message of the catch branch of `handleAuth`. -/
def authFailMessage (isLogin : Bool) : String :=
  if isLogin then "Invalid username or password" else "Failed to create account"

/-- `handleAuth` from `AuthScreen.tsx`: empty username or password stops
before any network call; a thrown fetch or non-`ok` response lands in the
catch branch with the mode-specific message; an `ok` response leads to the
three session writes, any failure among them also landing in the catch
branch with the same message. -/
def handleAuth (isLogin : Bool) (username password : String) (store : SessionStore)
    (resp : HttpResult AuthBody) : SessionStore × AuthOutcome :=
  if username = "" ∨ password = "" then
    (store, .validationError "Please enter both username and password")
  else
    match resp with
    | .netError _ => (store, .authFailed (authFailMessage isLogin))
    | .failure _ _ => (store, .authFailed (authFailMessage isLogin))
    | .success body =>
      match writeSession store body with
      | (s, true) => (s, .authenticated)
      | (s, false) => (s, .authFailed (authFailMessage isLogin))

/-- Outcome of `handleDeleteAccount` in `ProfileScreen.tsx`.
`accountDeleted` corresponds to `navigation.replace(Auth)` after the store
is cleared. -/
inductive DeleteAccountOutcome where
  | cancelled
  | deletionFailed (msg : String)
  | accountDeleted
deriving DecidableEq

/-- `handleDeleteAccount` from `ProfileScreen.tsx`: confirmation guard,
token guard (throwing "No authentication token found"), authenticated
DELETE to `/api/users/me`; a non-`ok` response throws with the body text; a
successful response clears the three session keys via `multiRemove` and
navigates to the unauthenticated state; every thrown error is caught and
surfaced as a message, leaving the store untouched. -/
def handleDeleteAccount (confirmed : Bool) (store : SessionStore)
    (resp : HttpResult String) : SessionStore × DeleteAccountOutcome :=
  if !confirmed then (store, .cancelled)
  else
    match store.userToken with
    | none => (store, .deletionFailed "No authentication token found")
    | some _ =>
      match resp with
      | .netError e => (store, .deletionFailed e)
      | .failure _ bodyText =>
        (store, .deletionFailed ("Account deletion failed: " ++ bodyText))
      | .success _ => (SessionStore.empty, .accountDeleted)

/-- User-interface events of the plant-detail delete flow, in the order they
happen. -/
inductive UiEvent where
  | navigateBack
  | statusChecked (ok : Bool)
  | errorShown (msg : String)
deriving DecidableEq

/-- `handleDelete` from `PlantDetailScreen.tsx`: confirmation guard, token
guard, authenticated DELETE to `/api/plants/ ++ id`; when the request
resolves, `navigation.goBack()` runs before `response.ok` is inspected, so a
non-`ok` status throws only after leaving the screen (the catch then shows
the error). A rejected fetch jumps to the catch directly, with no
navigation. The function never touches the collection list, which is passed
through unchanged. -/
def handleDelete (confirmed : Bool) (token : Option String)
    (resp : HttpResult String) (plants : List Plant) : List UiEvent × List Plant :=
  if !confirmed then ([], plants)
  else
    match token with
    | none => ([.errorShown "Authentication token not found. Please log in again."], plants)
    | some _ =>
      match resp with
      | .netError e => ([.errorShown e], plants)
      | .failure _ errText =>
        ([.navigateBack, .statusChecked false,
          .errorShown ("Failed to delete plant: " ++ errText)], plants)
      | .success _ => ([.navigateBack, .statusChecked true], plants)

/-! ### Lemmas about the endpoint probe loop -/

theorem resolveEndpoints_cons_nonOk (net : String → AttemptOutcome) (q : String)
    (rest : List String) (h : responseOk (net q) = false) :
    resolveEndpoints net (q :: rest) = resolveEndpoints net rest := by
  cases hq : net q with
  | throws => simp [resolveEndpoints, hq]
  | status code =>
    rw [hq] at h
    simp only [responseOk, decide_eq_false_iff_not] at h
    simp [resolveEndpoints, hq, h]

theorem resolveEndpoints_cons_ok (net : String → AttemptOutcome) (q : String)
    (rest : List String) (code : Nat) (hq : net q = .status code)
    (h : responseOk (net q) = true) :
    resolveEndpoints net (q :: rest) = some (q, code) := by
  rw [hq] at h
  simp only [responseOk, decide_eq_true_eq] at h
  simp [resolveEndpoints, hq, h]

theorem attemptTrace_cons_nonOk (net : String → AttemptOutcome) (q : String)
    (rest : List String) (h : responseOk (net q) = false) :
    attemptTrace net (q :: rest) = q :: attemptTrace net rest := by
  cases hq : net q with
  | throws => simp [attemptTrace, hq]
  | status code =>
    rw [hq] at h
    simp only [responseOk, decide_eq_false_iff_not] at h
    simp [attemptTrace, hq, h]

theorem attemptTrace_isPre (net : String → AttemptOutcome) :
    ∀ paths : List String, attemptTrace net paths <+: paths := by
  intro paths
  induction paths with
  | nil => exact ⟨[], rfl⟩
  | cons q rest ih =>
    cases hq : net q with
    | throws =>
      obtain ⟨t, ht⟩ := ih
      exact ⟨t, by simp [attemptTrace, hq, ht]⟩
    | status code =>
      by_cases hc : 200 ≤ code ∧ code < 300
      · exact ⟨rest, by simp [attemptTrace, hq, hc]⟩
      · obtain ⟨t, ht⟩ := ih
        exact ⟨t, by simp [attemptTrace, hq, hc, ht]⟩

theorem resolveEndpoints_some_iff (net : String → AttemptOutcome) :
    ∀ (paths : List String) (p : String) (code : Nat),
      resolveEndpoints net paths = some (p, code) ↔
        ∃ pre post, paths = pre ++ p :: post ∧
          (∀ q ∈ pre, responseOk (net q) = false) ∧
          net p = .status code ∧ responseOk (net p) = true := by
  intro paths
  induction paths with
  | nil =>
    intro p code
    constructor
    · intro h
      simp [resolveEndpoints] at h
    · rintro ⟨pre, post, hpaths, -, -, -⟩
      exact absurd hpaths (by simp)
  | cons q rest ih =>
    intro p code
    constructor
    · intro h
      by_cases hok : responseOk (net q) = true
      · cases hq : net q with
        | throws => rw [hq] at hok; simp [responseOk] at hok
        | status c =>
          rw [resolveEndpoints_cons_ok net q rest c hq hok] at h
          obtain ⟨hqp, hc⟩ : q = p ∧ c = code := by
            constructor <;> [exact congrArg Prod.fst (Option.some.inj h);
              exact congrArg Prod.snd (Option.some.inj h)]
          subst hqp; subst hc
          exact ⟨[], rest, rfl, by simp, hq, hok⟩
      · rw [Bool.not_eq_true] at hok
        rw [resolveEndpoints_cons_nonOk net q rest hok] at h
        obtain ⟨pre, post, hpaths, hpre, hp, hpok⟩ := (ih p code).mp h
        refine ⟨q :: pre, post, by simp [hpaths], ?_, hp, hpok⟩
        intro x hx
        rcases List.mem_cons.mp hx with hx | hx
        · exact hx ▸ hok
        · exact hpre x hx
    · rintro ⟨pre, post, hpaths, hpre, hp, hpok⟩
      have key : ∀ (pre₀ : List String), (∀ q ∈ pre₀, responseOk (net q) = false) →
          resolveEndpoints net (pre₀ ++ p :: post) = some (p, code) := by
        intro pre₀
        induction pre₀ with
        | nil =>
          intro _
          cases hpc : net p with
          | throws => rw [hpc] at hpok; simp [responseOk] at hpok
          | status c =>
            have : c = code := by
              rw [hp] at hpc
              exact (AttemptOutcome.status.inj hpc).symm
            rw [← this]
            exact resolveEndpoints_cons_ok net p post c hpc hpok
        | cons x xs ihx =>
          intro hall
          rw [List.cons_append,
            resolveEndpoints_cons_nonOk net x (xs ++ p :: post) (hall x (by simp))]
          exact ihx (fun y hy => hall y (List.mem_cons_of_mem x hy))
      rw [hpaths]
      exact key pre hpre

theorem resolveEndpoints_none_iff (net : String → AttemptOutcome) :
    ∀ paths : List String,
      resolveEndpoints net paths = none ↔ ∀ q ∈ paths, responseOk (net q) = false := by
  intro paths
  induction paths with
  | nil => simp [resolveEndpoints]
  | cons q rest ih =>
    constructor
    · intro h
      by_cases hok : responseOk (net q) = true
      · cases hq : net q with
        | throws => rw [hq] at hok; simp [responseOk] at hok
        | status c =>
          rw [resolveEndpoints_cons_ok net q rest c hq hok] at h
          exact absurd h (by simp)
      · rw [Bool.not_eq_true] at hok
        rw [resolveEndpoints_cons_nonOk net q rest hok] at h
        intro x hx
        rcases List.mem_cons.mp hx with hx | hx
        · exact hx ▸ hok
        · exact (ih.mp h) x hx
    · intro hall
      rw [resolveEndpoints_cons_nonOk net q rest (hall q (by simp))]
      exact ih.mpr (fun x hx => hall x (List.mem_cons_of_mem q hx))

/-! ### Claim theorems -/

/-- C1: The endpoint resolution loop of `fetchPlants` and `deletePlant`
attempts candidates strictly in order and each at most once (the attempted
candidates form an initial segment of the candidate list), returns the
response of the first candidate whose HTTP status is in the success range
together with the path that succeeded (every earlier candidate having
failed), treats a candidate that throws as a non-match and proceeds to the
next candidate without retrying it, and ends with no response (the
endpoint-exhausted error) if and only if no candidate returns a success
status. -/
theorem endpoint_resolution_loop (net : String → AttemptOutcome) (paths : List String) :
    (attemptTrace net paths <+: paths) ∧
    (∀ p code, resolveEndpoints net paths = some (p, code) ↔
      ∃ pre post, paths = pre ++ p :: post ∧
        (∀ q ∈ pre, responseOk (net q) = false) ∧
        net p = .status code ∧ responseOk (net p) = true) ∧
    (resolveEndpoints net paths = none ↔ ∀ q ∈ paths, responseOk (net q) = false) ∧
    (∀ p rest, net p = .throws →
      resolveEndpoints net (p :: rest) = resolveEndpoints net rest ∧
      attemptTrace net (p :: rest) = p :: attemptTrace net rest) := by
  refine ⟨attemptTrace_isPre net paths, resolveEndpoints_some_iff net paths,
    resolveEndpoints_none_iff net paths, ?_⟩
  intro p rest hp
  have hok : responseOk (net p) = false := by rw [hp]; rfl
  exact ⟨resolveEndpoints_cons_nonOk net p rest hok,
    attemptTrace_cons_nonOk net p rest hok⟩

/-- A network with candidate A throwing, B returning 404, C returning 200,
as in the resolver scenario of the specification. -/
def exNet1 : String → AttemptOutcome := fun p =>
  if p = "A" then .throws
  else if p = "B" then .status 404
  else if p = "C" then .status 200
  else .throws

theorem endpoint_resolution_loop_witness :
    resolveEndpoints exNet1 ["A", "B", "C"] = some ("C", 200) ∧
    attemptTrace exNet1 ["A", "B", "C"] = ["A", "B", "C"] := by
  have h := (endpoint_resolution_loop exNet1 ["A", "B", "C"]).2.1 "C" 200
  exact ⟨h.mpr ⟨["A", "B"], [], rfl, by decide, by decide, by decide⟩, by decide⟩

/-- C4: calling the list operation while no token is stored fails with the
not-authenticated error and attempts no endpoint candidate at all. -/
theorem fetchPlants_no_token_no_request (net : String → AttemptOutcome) :
    fetchPlants none net =
      (.authError "Authentication token not found. Please log in again.", []) := rfl

/-- C5: whenever `deletePlant` succeeds (on whichever candidate path), the
resulting in-memory list is the filter of the previous one: it contains no
entry whose id is the deleted id, and keeps exactly the entries with a
different id, unchanged and in their original relative order (a sublist of
the previous list). -/
theorem deletePlant_removes_only_target (plantId : String) (token : Option String)
    (net : String → AttemptOutcome) (plants newPlants : List Plant) (p : String)
    (h : deletePlant plantId token net plants = (newPlants, .removed p)) :
    newPlants = plants.filter (fun pl => pl._id != plantId) ∧
    (∀ pl ∈ newPlants, pl._id ≠ plantId) ∧
    List.Sublist newPlants plants ∧
    (∀ pl, pl ∈ newPlants ↔ pl ∈ plants ∧ pl._id ≠ plantId) := by
  have hfilter : newPlants = plants.filter (fun pl => pl._id != plantId) := by
    cases token with
    | none =>
      simp only [deletePlant] at h
      injection h with h1 h2
      simp at h2
    | some t =>
      cases hres : resolveEndpoints net (deleteEndpoints plantId) with
      | none =>
        simp only [deletePlant, hres] at h
        injection h with h1 h2
        simp at h2
      | some pr =>
        cases pr with
        | mk pp code =>
          simp only [deletePlant, hres] at h
          injection h with h1 h2
          exact h1.symm
  refine ⟨hfilter, ?_, ?_, ?_⟩
  · intro pl hpl
    rw [hfilter] at hpl
    simpa using (List.mem_filter.mp hpl).2
  · rw [hfilter]
    exact List.filter_sublist plants
  · intro pl
    rw [hfilter, List.mem_filter]
    simp

/-- A network where the first delete candidate returns 404 and the second
succeeds, as in the removal scenario of the specification. -/
def exNet5 : String → AttemptOutcome := fun p =>
  if p = "/api/plants/plant123" then .status 404
  else if p = "/plants/plant123" then .status 200
  else .throws

/-- A plant with id plant123. -/
def exPlantA : Plant :=
  ⟨"plant123", "Monstera", "Monstera", "2024-01-01", 9 / 10, none, []⟩

/-- A plant with a different id. -/
def exPlantB : Plant :=
  ⟨"plant456", "Fern", "Fern", "2024-01-02", 8 / 10, none, []⟩

theorem deletePlant_removes_only_target_witness :
    [exPlantB] = [exPlantA, exPlantB].filter (fun pl => pl._id != "plant123") ∧
    (∀ pl ∈ [exPlantB], pl._id ≠ "plant123") ∧
    List.Sublist [exPlantB] [exPlantA, exPlantB] ∧
    (∀ pl, pl ∈ [exPlantB] ↔ pl ∈ [exPlantA, exPlantB] ∧ pl._id ≠ "plant123") :=
  deletePlant_removes_only_target "plant123" (some "tok") exNet5
    [exPlantA, exPlantB] [exPlantB] "/plants/plant123" rfl

/-- A network where only the plural route without the api segment answers
with a success status. -/
def exNet6 : String → AttemptOutcome := fun p =>
  if p = "/api/plants" then .status 404
  else if p = "/plants" then .status 200
  else .throws

/-- C6 counterexample: the list operation of the latest CollectionScreen
revision does not issue its GET against the single canonical path
"/api/plants/": that path is not even among its candidates, and against a
backend serving "/plants" the operation demonstrably probes two candidate
paths in order. -/
theorem listPlants_not_single_canonical_path :
    "/api/plants/" ∉ listEndpoints ∧
    (fetchPlants (some "tok") exNet6).2 = ["/api/plants", "/plants"] ∧
    (fetchPlants (some "tok") exNet6).1 = .loaded "/plants" 200 := by
  refine ⟨by decide, by decide, by decide⟩

/-- C6 amended: only the Profile screen plant-count fetch uses the single
canonical path "/api/plants/"; the Collection screen list operation still
probes the four-path candidate set (none of which carries the trailing
slash), in its original order. -/
theorem listPlants_paths_by_screen :
    profilePlantsPath = "/api/plants/" ∧
    listEndpoints = ["/api/plants", "/plants", "/api/userplants", "/userplants"] ∧
    profilePlantsPath ∉ listEndpoints :=
  ⟨rfl, rfl, by decide⟩

/-- C2: whenever the identification call succeeds, the result delivered to
the UI has its image reference equal to the originally selected local
image URI, whatever image URL the backend echoed in its body; the other
fields are the ones decoded from the backend body. -/
theorem identifyPlant_uses_local_image (img : String) (token userId : Option String)
    (resp : HttpResult IdentificationResult) (res : IdentificationResult)
    (h : identifyPlant (some img) token userId resp = .identified res) :
    res.image_url = some img ∧
    ∃ r, resp = .success r ∧ res.plant_type = r.plant_type ∧
      res.confidence = r.confidence ∧ res.all_predictions = r.all_predictions := by
  cases token with
  | none => cases userId <;> simp [identifyPlant] at h
  | some t =>
    cases userId with
    | none => simp [identifyPlant] at h
    | some u =>
      cases resp with
      | netError e => simp [identifyPlant] at h
      | failure c b => simp [identifyPlant] at h
      | success r =>
        simp only [identifyPlant] at h
        injection h with h1
        exact ⟨by rw [← h1], r, rfl, by rw [← h1], by rw [← h1], by rw [← h1]⟩

/-- An identification response body echoing a backend-side image URL. -/
def exIdent2 : IdentificationResult :=
  { plant_type := "Monstera", confidence := 92 / 100,
    all_predictions := [⟨"Monstera", 92 / 100⟩, ⟨"Philodendron", 5 / 100⟩],
    image_url := some "http://backend.example/uploads/echo.jpg",
    care_info := none }

theorem identifyPlant_uses_local_image_witness :
    ({ exIdent2 with image_url := some "file://local.jpg" } :
        IdentificationResult).image_url = some "file://local.jpg" ∧
    ∃ r, (HttpResult.success exIdent2 : HttpResult IdentificationResult) = .success r ∧
      ({ exIdent2 with image_url := some "file://local.jpg" } :
          IdentificationResult).plant_type = r.plant_type ∧
      ({ exIdent2 with image_url := some "file://local.jpg" } :
          IdentificationResult).confidence = r.confidence ∧
      ({ exIdent2 with image_url := some "file://local.jpg" } :
          IdentificationResult).all_predictions = r.all_predictions :=
  identifyPlant_uses_local_image "file://local.jpg" (some "tok") (some "uid")
    (.success exIdent2) { exIdent2 with image_url := some "file://local.jpg" } rfl

/-- C3: for valid (non-empty) credentials, login either succeeds having
written all three session fields, or fails with the user-facing message
leaving the store exactly as it was; it never produces a partially
populated session. The hypothesis on `resp` is the contract stated by the
specification: an HTTP-success body decodes to an access token, a user id
and a username. -/
theorem handleAuth_login_all_or_nothing (username password : String)
    (store : SessionStore) (resp : HttpResult AuthBody)
    (hu : username ≠ "") (hp : password ≠ "")
    (hwf : ∀ body, resp = .success body →
      body.access_token.isSome ∧ body._id.isSome ∧ body.username.isSome) :
    ((handleAuth true username password store resp).2 = .authenticated ∧
      (handleAuth true username password store resp).1.userToken.isSome ∧
      (handleAuth true username password store resp).1.userId.isSome ∧
      (handleAuth true username password store resp).1.username.isSome) ∨
    ((handleAuth true username password store resp).2 =
        .authFailed "Invalid username or password" ∧
      (handleAuth true username password store resp).1 = store) := by
  have hcond : ¬(username = "" ∨ password = "") := by
    rintro (h | h)
    · exact hu h
    · exact hp h
  cases resp with
  | netError e =>
    right
    simp [handleAuth, hcond, authFailMessage]
  | failure c b =>
    right
    simp [handleAuth, hcond, authFailMessage]
  | success body =>
    obtain ⟨h1, h2, h3⟩ := hwf body rfl
    obtain ⟨tok, htok⟩ := Option.isSome_iff_exists.mp h1
    obtain ⟨uid, huid⟩ := Option.isSome_iff_exists.mp h2
    obtain ⟨un, hun⟩ := Option.isSome_iff_exists.mp h3
    left
    simp [handleAuth, hcond, writeSession, htok, huid, hun]

theorem handleAuth_login_all_or_nothing_witness :
    ((handleAuth true "alice" "hunter2" SessionStore.empty
        (.success ⟨some "tok", some "u1", some "alice"⟩)).2 = .authenticated ∧
      (handleAuth true "alice" "hunter2" SessionStore.empty
        (.success ⟨some "tok", some "u1", some "alice"⟩)).1.userToken.isSome ∧
      (handleAuth true "alice" "hunter2" SessionStore.empty
        (.success ⟨some "tok", some "u1", some "alice"⟩)).1.userId.isSome ∧
      (handleAuth true "alice" "hunter2" SessionStore.empty
        (.success ⟨some "tok", some "u1", some "alice"⟩)).1.username.isSome) ∨
    ((handleAuth true "alice" "hunter2" SessionStore.empty
        (.success ⟨some "tok", some "u1", some "alice"⟩)).2 =
        .authFailed "Invalid username or password" ∧
      (handleAuth true "alice" "hunter2" SessionStore.empty
        (.success ⟨some "tok", some "u1", some "alice"⟩)).1 = SessionStore.empty) :=
  handleAuth_login_all_or_nothing "alice" "hunter2" SessionStore.empty
    (.success ⟨some "tok", some "u1", some "alice"⟩) (by decide) (by decide)
    (fun body hb => by rw [← HttpResult.success.inj hb]; exact ⟨rfl, rfl, rfl⟩)

/-- Heads differ, so a string beginning with one prefix cannot begin with
the other. -/
theorem beginsWith_head_ne {a b : Char} (ps qs s : List Char)
    (hab : a ≠ b) (h : beginsWith (a :: ps) s = true) :
    beginsWith (b :: qs) s = false := by
  cases s with
  | nil => simp [beginsWith] at h
  | cons c cs =>
    simp only [beginsWith, Bool.and_eq_true, beq_iff_eq] at h
    obtain ⟨hac, -⟩ := h
    have hbc : (b == c) = false := by
      rw [beq_eq_false_iff_ne]
      intro hbc
      exact hab (by rw [hac, hbc])
    simp [beginsWith, hbc]

/-- C7: a backend image URL beginning with "/" is displayed as the base URL
concatenated with it; one beginning with "http" is already absolute and
used unchanged; any other non-empty URL is used as is; an absent or empty
URL yields the empty string. -/
theorem getImageUri_resolution (url : String) :
    (getImageUri none = "" ∧ getImageUri (some "") = "") ∧
    (jsStartsWith url "http" = true → getImageUri (some url) = url) ∧
    (jsStartsWith url "/" = true → getImageUri (some url) = API_URL ++ url) ∧
    (url ≠ "" → jsStartsWith url "http" = false → jsStartsWith url "/" = false →
      getImageUri (some url) = url) := by
  refine ⟨⟨rfl, rfl⟩, ?_, ?_, ?_⟩
  · intro h
    have hne : url ≠ "" := by
      intro he
      subst he
      exact absurd h (by decide)
    simp [getImageUri, hne, h]
  · intro h
    have hne : url ≠ "" := by
      intro he
      subst he
      exact absurd h (by decide)
    have h' : beginsWith ('/' :: []) url.data = true := h
    have hhttp : jsStartsWith url "http" = false :=
      beginsWith_head_ne [] ['t', 't', 'p'] url.data (by decide) h'
    simp [getImageUri, hne, hhttp, h]
  · intro hne h1 h2
    simp [getImageUri, hne, h1, h2]

theorem getImageUri_resolution_witness :
    getImageUri (some "/uploads/a.jpg") = "http://127.0.0.1:8000/uploads/a.jpg" ∧
    getImageUri (some "http://cdn.example/x.jpg") = "http://cdn.example/x.jpg" ∧
    getImageUri (some "file://local.jpg") = "file://local.jpg" ∧
    getImageUri none = "" ∧
    getImageUri (some "") = "" := by
  have h1 := (getImageUri_resolution "/uploads/a.jpg").2.2.1 (by decide)
  have h2 := (getImageUri_resolution "http://cdn.example/x.jpg").2.1 (by decide)
  have h3 := (getImageUri_resolution "file://local.jpg").2.2.2 (by decide)
    (by decide) (by decide)
  exact ⟨by rw [h1]; decide, h2, h3, rfl, rfl⟩

/-- C8: when the base64 conversion of the selected image fails during the
add operation, the save still proceeds: the payload is posted with empty
image data and every other field populated from the identification result
and the stored identity, instead of the whole operation aborting. -/
theorem addToCollection_degrades_without_image (r : IdentificationResult)
    (tok uid img now : String) :
    ∃ pd, addToCollection (some r) (some tok) (some uid) (some img)
        (Except.error ()) now = some pd ∧
      pd.image_data = "" ∧
      pd.user_id = uid ∧
      pd.date_added = now ∧
      pd.type = (if r.plant_type = "" then "Unknown" else r.plant_type) ∧
      pd.name = (if r.plant_type = "" then "Unidentified Plant" else r.plant_type) ∧
      pd.confidence = r.confidence ∧
      pd.all_predictions = r.all_predictions := by
  refine ⟨_, rfl, rfl, rfl, rfl, rfl, rfl, ?_, rfl⟩
  by_cases h : r.confidence = 0
  · simp [h]
  · simp [h]

/-- C9: deleteAccount fails with the auth error when no token is stored; a
successful authenticated DELETE clears all three session keys and signals
navigation to the unauthenticated state; any failure (missing token,
network error, non-success status) surfaces a message and leaves the store
exactly as it was. -/
theorem handleDeleteAccount_session_discipline (store : SessionStore)
    (resp : HttpResult String) :
    (store.userToken = none →
      handleDeleteAccount true store resp =
        (store, .deletionFailed "No authentication token found")) ∧
    (store.userToken ≠ none →
      ((∀ body, resp = .success body →
          handleDeleteAccount true store resp = (SessionStore.empty, .accountDeleted)) ∧
        (∀ e, resp = .netError e →
          handleDeleteAccount true store resp = (store, .deletionFailed e)) ∧
        (∀ code text, resp = .failure code text →
          handleDeleteAccount true store resp =
            (store, .deletionFailed ("Account deletion failed: " ++ text))))) := by
  constructor
  · intro h
    simp [handleDeleteAccount, h]
  · intro h
    obtain ⟨t, ht⟩ := Option.ne_none_iff_exists.mp h
    refine ⟨?_, ?_, ?_⟩
    · rintro body rfl
      simp [handleDeleteAccount, ← ht]
    · rintro e rfl
      simp [handleDeleteAccount, ← ht]
    · rintro code text rfl
      simp [handleDeleteAccount, ← ht]

theorem handleDeleteAccount_session_discipline_witness :
    handleDeleteAccount true ⟨some "tok", some "u1", some "alice"⟩ (.success "") =
      (SessionStore.empty, .accountDeleted) ∧
    handleDeleteAccount true ⟨none, some "u1", some "alice"⟩ (.success "") =
      (⟨none, some "u1", some "alice"⟩, .deletionFailed "No authentication token found") := by
  constructor
  · exact ((handleDeleteAccount_session_discipline
      ⟨some "tok", some "u1", some "alice"⟩ (.success "")).2 (by simp)).1 "" rfl
  · exact (handleDeleteAccount_session_discipline
      ⟨none, some "u1", some "alice"⟩ (.success "")).1 rfl

/-- C10: on the plant-detail screen, once deletion is confirmed and the
DELETE request resolves, navigation back happens before the response
status is inspected: both the success trace and the failure trace start
with the back navigation, and the failure trace only appends the error
message after the status check, so a failed delete still leaves the
detail screen; in every case the backing collection list passes through
unchanged. -/
theorem handleDelete_navigates_before_status (t : String) (resp : HttpResult String)
    (plants : List Plant) :
    (∀ confirmed token, (handleDelete confirmed token resp plants).2 = plants) ∧
    (∀ body, resp = .success body →
      (handleDelete true (some t) resp plants).1 =
        [.navigateBack, .statusChecked true]) ∧
    (∀ code text, resp = .failure code text →
      (handleDelete true (some t) resp plants).1 =
        [.navigateBack, .statusChecked false,
          .errorShown ("Failed to delete plant: " ++ text)]) := by
  refine ⟨?_, ?_, ?_⟩
  · intro confirmed token
    cases confirmed <;> cases token <;> cases resp <;> simp [handleDelete]
  · rintro body rfl
    simp [handleDelete]
  · rintro code text rfl
    simp [handleDelete]

theorem handleDelete_navigates_before_status_witness :
    (handleDelete true (some "tok") (.failure 500 "server error") []).2 = ([] : List Plant) ∧
    (handleDelete true (some "tok") (.failure 500 "server error") []).1 =
      [.navigateBack, .statusChecked false,
        .errorShown ("Failed to delete plant: " ++ "server error")] := by
  have h := handleDelete_navigates_before_status "tok" (.failure 500 "server error") []
  exact ⟨h.1 true (some "tok"), h.2.2 500 "server error" rfl⟩

end Floradex
